import Mathlib

/-!
Verification of the session/auth-gate core of the react-enterprise-boilerplate
repository: the zustand auth slice (login, logout, updateUser, persistence),
the route guard components of AppRouter.tsx, and the ErrorBoundary component.
The TypeScript code is shallowly embedded: store actions become functions on an
explicit state record, the persist middleware becomes an explicit rehydration
function, and route resolution becomes a function from a requested path and the
authentication flag to a mount-or-redirect outcome, threading the set of lazily
loaded screens.
-/

namespace REB

/-- Modelled from the spec: the User identity record. Its TypeScript
declaration (src/types/api/user) is not among the repository files; the spec
lists the fields id, displayName, email, role. -/
structure User where
  id : String
  displayName : String
  email : String
  role : String
deriving Repr, DecidableEq

/-- A TypeScript Partial over User, as taken by updateUser: every field
optional, none meaning the field is absent from the object literal. -/
structure PartialUser where
  id : Option String := none
  displayName : Option String := none
  email : Option String := none
  role : Option String := none
deriving Repr, DecidableEq

/-- The object-spread merge performed by updateUser in authSlice.ts: the
current user is spread first and the update data second, so fields present in
the update win and fields absent from it keep their current values. -/
def mergeUser (currentUser : User) (userData : PartialUser) : User :=
  { id := userData.id.getD currentUser.id
    displayName := userData.displayName.getD currentUser.displayName
    email := userData.email.getD currentUser.email
    role := userData.role.getD currentUser.role }

/-- The data part of the zustand auth store state (AuthState in
authSlice.ts): user, isAuthenticated, token. -/
structure AuthState where
  user : Option User
  isAuthenticated : Bool
  token : Option String
deriving Repr, DecidableEq

/-- The initial store state of authSlice.ts: user null, isAuthenticated
false, token null. -/
def initialAuthState : AuthState :=
  { user := none, isAuthenticated := false, token := none }

/-- The login action: set user, token and isAuthenticated true (zustand set
merges the given keys into the state; all three data keys are given). -/
def login (user : User) (token : String) (s : AuthState) : AuthState :=
  { s with user := some user, token := some token, isAuthenticated := true }

/-- The logout action: clear user and token, isAuthenticated false. -/
def logout (s : AuthState) : AuthState :=
  { s with user := none, token := none, isAuthenticated := false }

/-- The updateUser action: read the current user; if present, set user to the
spread merge of the current user and the update data; otherwise do nothing. -/
def updateUser (userData : PartialUser) (s : AuthState) : AuthState :=
  match s.user with
  | some currentUser => { s with user := some (mergeUser currentUser userData) }
  | none => s

/-- The persisted subset selected by the partialize option of the persist
configuration in authSlice.ts: only token and user. -/
structure Persisted where
  token : Option String
  user : Option User
deriving Repr, DecidableEq

/-- partialize from authSlice.ts. -/
def partialize (s : AuthState) : Persisted :=
  { token := s.token, user := s.user }

/-- What durable storage can hold at boot under the auth-storage key: nothing,
a value whose deserialization fails (corrupt or truncated text; the persist
middleware catches the failure), or a well-formed persisted subset. -/
inductive StorageContent where
  | absent
  | malformed
  | wellFormed (p : Persisted)
deriving Repr, DecidableEq

/-- Boot-time rehydration as performed by the zustand persist middleware under
the configuration of authSlice.ts: on absent or malformed storage the state is
left as it is, and on a well-formed persisted subset the default merge spreads
the persisted keys (here token and user, the partialize output) over the
current state, leaving every other key, in particular isAuthenticated, at its
current value. authSlice.ts supplies no custom merge and no onRehydrateStorage
handler. -/
def rehydrate (stored : StorageContent) (current : AuthState) : AuthState :=
  match stored with
  | .absent => current
  | .malformed => current
  | .wellFormed p => { current with token := p.token, user := p.user }

/-- A simulated process restart after reaching state s: storage holds the
partialized subset of s, and the store boots from its initial state and
rehydrates. -/
def restartFrom (s : AuthState) : AuthState :=
  rehydrate (.wellFormed (partialize s)) initialAuthState

/-- The session invariant stated by the spec: isAuthenticated equals (user
present and token present). -/
def authInvariant (s : AuthState) : Bool :=
  s.isAuthenticated == (s.user.isSome && s.token.isSome)

/-- The navigable screens of AppRouter.tsx; each of the five is declared
through React.lazy, so each has a deferred loader. -/
inductive Screen where
  | login
  | dashboard
  | users
  | settings
  | notFound
deriving Repr, DecidableEq

/-- The result of a guard component: render the children, or render a Navigate
element toward a fixed target. -/
inductive GuardResult where
  | allow
  | redirect (target : String)
deriving Repr, DecidableEq

/-- ProtectedRoute from AppRouter.tsx: when not authenticated, Navigate to
the fixed login path; otherwise render the children. -/
def ProtectedRoute (isAuthenticated : Bool) : GuardResult :=
  if !isAuthenticated then .redirect "/login" else .allow

/-- PublicRoute from AppRouter.tsx: when authenticated, Navigate to the fixed
home path; otherwise render the children. -/
def PublicRoute (isAuthenticated : Bool) : GuardResult :=
  if isAuthenticated then .redirect "/dashboard" else .allow

/-- The visibility tag of a screen, as in the spec of the route guard. -/
inductive Visibility where
  | PUBLIC
  | PROTECTED
deriving Repr, DecidableEq

/-- The route guard decision: PROTECTED screens are wrapped in ProtectedRoute
and PUBLIC screens in PublicRoute. -/
def guardDecide (v : Visibility) (isAuthenticated : Bool) : GuardResult :=
  match v with
  | .PROTECTED => ProtectedRoute isAuthenticated
  | .PUBLIC => PublicRoute isAuthenticated

/-- The outcome of resolving one navigation intent: mount a screen, or
redirect to a path. -/
inductive Outcome where
  | mount (s : Screen)
  | redirect (target : String)
deriving Repr, DecidableEq

/-- Whether an outcome is a redirect. -/
def Outcome.isRedirect : Outcome → Bool
  | .redirect _ => true
  | .mount _ => false

/-- The paths declared in the route table of AppRouter.tsx: the public login
route, the protected layout route with its index, and the three protected
child routes. -/
def declaredPaths : List String :=
  ["/login", "/", "/dashboard", "/users", "/settings"]

/-- Route resolution from the route table of AppRouter.tsx. The login path is
wrapped in PublicRoute; the root path and its children are wrapped in
ProtectedRoute, the index route rendering a Navigate to the dashboard path;
any path matching no declared route falls to the catch-all route, which mounts
the NotFound screen with no guard around it. The guard element is rendered
before its children, so a redirect outcome is produced without touching the
requested screen. -/
def routeMatch (path : String) (isAuthenticated : Bool) : Outcome :=
  if path = "/login" then
    match PublicRoute isAuthenticated with
    | .redirect t => .redirect t
    | .allow => .mount .login
  else if path = "/" then
    match ProtectedRoute isAuthenticated with
    | .redirect t => .redirect t
    | .allow => .redirect "/dashboard"
  else if path = "/dashboard" then
    match ProtectedRoute isAuthenticated with
    | .redirect t => .redirect t
    | .allow => .mount .dashboard
  else if path = "/users" then
    match ProtectedRoute isAuthenticated with
    | .redirect t => .redirect t
    | .allow => .mount .users
  else if path = "/settings" then
    match ProtectedRoute isAuthenticated with
    | .redirect t => .redirect t
    | .allow => .mount .settings
  else
    .mount .notFound

/-- One navigation step threading the set of screens whose deferred loaders
have been invoked so far in this process. A mounted lazy screen invokes its
loader on first mount only (React.lazy caches the resolved module); a redirect
outcome never renders the requested screen, so it invokes no loader. -/
def navigate (path : String) (isAuthenticated : Bool) (loaded : List Screen) :
    Outcome × List Screen :=
  match routeMatch path isAuthenticated with
  | .redirect t => (.redirect t, loaded)
  | .mount sc => (.mount sc, if sc ∈ loaded then loaded else sc :: loaded)

/-- The state of ErrorBoundary.tsx. -/
structure EBState where
  hasError : Bool
  error : Option String
deriving Repr, DecidableEq

/-- The initial ErrorBoundary state: hasError false, no error. -/
def initialEBState : EBState :=
  { hasError := false, error := none }

/-- getDerivedStateFromError: record the caught error. -/
def getDerivedStateFromError (e : String) : EBState :=
  { hasError := true, error := some e }

/-- handleReset: clear hasError and the stored error, nothing else. -/
def handleReset (_s : EBState) : EBState :=
  { hasError := false, error := none }

/-- The actions the built-in failure screen offers: the Refresh Page button
(full reload) and the Try Again button (handleReset). -/
inductive EBAction where
  | reload
  | retry
deriving Repr, DecidableEq

/-- What one render of the ErrorBoundary produces: the wrapped children, a
view supplied as the fallback prop, or the built-in failure screen with its
action buttons. -/
inductive EBView where
  | children
  | fallbackView
  | failureScreen (actions : List EBAction)
deriving Repr, DecidableEq

/-- The render method of ErrorBoundary.tsx: with no captured error, render
the children; with a captured error, render the supplied fallback when the
prop is present, else the built-in failure screen offering the reload and
retry buttons. -/
def renderEB (s : EBState) (fallback : Option EBView) : EBView :=
  if s.hasError then
    match fallback with
    | some fb => fb
    | none => .failureScreen [.reload, .retry]
  else
    .children

/-- A sample user for concrete evaluations. -/
def demoUser : User :=
  { id := "1", displayName := "John Doe", email := "john@example.com", role := "admin" }

/-- A sample update giving only the displayName field. -/
def samplePatch : PartialUser :=
  { displayName := some "Jane" }

/-- The store state right after login of the sample user. -/
def loggedIn : AuthState :=
  login demoUser "tok" initialAuthState

/-- A sample captured error state of the ErrorBoundary. -/
def bootError : EBState :=
  getDerivedStateFromError "chunk load failed"

/-- General development: the three store actions establish or preserve the
session invariant. -/
theorem authInvariant_actions (s : AuthState) (u : User) (t : String) (p : PartialUser) :
    authInvariant (login u t s) = true ∧
    authInvariant (logout s) = true ∧
    (authInvariant s = true → authInvariant (updateUser p s) = true) := by
  rcases s with ⟨user, auth, tok⟩
  cases user <;> simp [authInvariant, login, logout, updateUser]

/-- C1: the claim states that after every Session Store operation, rehydration
included, isAuthenticated holds exactly when both user and token are present.
The actions maintain the invariant, but boot-time rehydration of the subset
persisted after a login restores user and token while isAuthenticated stays at
its initial false (the persist configuration partializes isAuthenticated away
and never derives it back), so the invariant is violated after rehydration. -/
theorem C1_rehydration_violates_invariant :
    authInvariant loggedIn = true ∧
    authInvariant (logout loggedIn) = true ∧
    authInvariant (updateUser samplePatch loggedIn) = true ∧
    (restartFrom loggedIn).user = some demoUser ∧
    (restartFrom loggedIn).token = some "tok" ∧
    (restartFrom loggedIn).isAuthenticated = false ∧
    authInvariant (restartFrom loggedIn) = false := by
  decide

/-- C2: only token and user are written to durable storage (the partialize
output), as the claim states; but the round trip of login followed by a
simulated restart yields isAuthenticated false, not the claimed true, because
rehydration merges the persisted subset over the initial state and never
derives isAuthenticated. -/
theorem C2_roundtrip_loses_authentication :
    partialize loggedIn = { token := some "tok", user := some demoUser } ∧
    restartFrom loggedIn =
      { user := some demoUser, isAuthenticated := false, token := some "tok" } := by
  decide

/-- C3: the route guard decision table is exactly the four rows of the claim,
and every redirect the guard can produce targets one of the two fixed paths,
the login path or the home path. -/
theorem C3_guard_decision_table :
    guardDecide .PROTECTED false = .redirect "/login" ∧
    guardDecide .PROTECTED true = .allow ∧
    guardDecide .PUBLIC true = .redirect "/dashboard" ∧
    guardDecide .PUBLIC false = .allow ∧
    (∀ (v : Visibility) (a : Bool) (t : String),
      guardDecide v a = .redirect t → t = "/login" ∨ t = "/dashboard") := by
  refine ⟨rfl, rfl, rfl, rfl, ?_⟩
  intro v a t h
  cases v <;> cases a <;>
    simp [guardDecide, ProtectedRoute, PublicRoute] at h <;>
    simp [h]

/-- Witness for C3 at the concrete row (PROTECTED, false). -/
theorem C3_guard_decision_table_witness :
    guardDecide .PROTECTED false = .redirect "/login" ∧
    ("/login" = "/login" ∨ ("/login" : String) = "/dashboard") :=
  ⟨C3_guard_decision_table.1,
   C3_guard_decision_table.2.2.2.2 .PROTECTED false "/login" C3_guard_decision_table.1⟩

/-- C4 counterexample: calling login with an empty token (so not both
credentials non-empty) is not rejected: the store still enters a state with
isAuthenticated true, the empty token stored. -/
theorem C4_counterexample_empty_token :
    ("" : String).isEmpty = true ∧
    (login demoUser "" initialAuthState).isAuthenticated = true ∧
    (login demoUser "" initialAuthState).token = some "" := by
  decide

/-- C4 amended: login performs no runtime validation at the store boundary:
every call, whatever the arguments, unconditionally sets the user, the token
and isAuthenticated true; rejecting missing credentials is left to the static
types and the caller. -/
theorem C4_login_is_unconditional (u : User) (t : String) (s : AuthState) :
    login u t s = { user := some u, token := some t, isAuthenticated := true } :=
  rfl

/-- C5: updateUser never changes token or isAuthenticated; with no current
user it leaves the whole session unchanged; with a current user it replaces
the user with the spread merge, in which every field absent from the update
keeps its current value. -/
theorem C5_updateUser_frame (s : AuthState) (p : PartialUser) :
    (updateUser p s).token = s.token ∧
    (updateUser p s).isAuthenticated = s.isAuthenticated ∧
    (s.user = none → updateUser p s = s) ∧
    ∀ u, s.user = some u →
      (updateUser p s).user = some (mergeUser u p) ∧
      (p.id = none → (mergeUser u p).id = u.id) ∧
      (p.displayName = none → (mergeUser u p).displayName = u.displayName) ∧
      (p.email = none → (mergeUser u p).email = u.email) ∧
      (p.role = none → (mergeUser u p).role = u.role) := by
  rcases s with ⟨user, auth, tok⟩
  cases user with
  | none => simp [updateUser]
  | some u =>
    refine ⟨rfl, rfl, by simp [updateUser], ?_⟩
    intro u' hu'
    injection hu' with hu'
    subst hu'
    refine ⟨rfl, ?_, ?_, ?_, ?_⟩ <;> intro h <;> simp [mergeUser, h]

/-- Witness for C5 at a session without a user and at one with the sample
user, updated by a record giving only displayName. -/
theorem C5_updateUser_frame_witness :
    updateUser samplePatch initialAuthState = initialAuthState ∧
    (updateUser samplePatch loggedIn).user = some (mergeUser demoUser samplePatch) ∧
    (mergeUser demoUser samplePatch).email = demoUser.email :=
  ⟨(C5_updateUser_frame initialAuthState samplePatch).2.2.1 rfl,
   ((C5_updateUser_frame loggedIn samplePatch).2.2.2 demoUser rfl).1,
   ((C5_updateUser_frame loggedIn samplePatch).2.2.2 demoUser rfl).2.2.2.1 rfl⟩

/-- C6: a navigation intent for any path outside the declared route table
resolves, for every session, to mounting the NotFound screen: never a
redirect, never an error. -/
theorem C6_unknown_path_not_found (path : String) (isAuthenticated : Bool)
    (h : path ∉ declaredPaths) :
    routeMatch path isAuthenticated = .mount .notFound := by
  simp [declaredPaths] at h
  obtain ⟨h1, h2, h3, h4, h5⟩ := h
  simp [routeMatch, h1, h2, h3, h4, h5]

/-- Witness for C6 at the undeclared path /nope, in both session states. -/
theorem C6_unknown_path_not_found_witness :
    "/nope" ∉ declaredPaths ∧
    routeMatch "/nope" false = .mount .notFound ∧
    routeMatch "/nope" true = .mount .notFound :=
  ⟨by decide, C6_unknown_path_not_found "/nope" false (by decide),
   C6_unknown_path_not_found "/nope" true (by decide)⟩

/-- C7: whenever route resolution yields a redirect, navigation leaves the set
of invoked deferred loaders untouched: the redirected-away screen is never
loaded by that navigation. -/
theorem C7_redirect_never_invokes_loader (path : String) (isAuthenticated : Bool)
    (loaded : List Screen) (t : String)
    (h : routeMatch path isAuthenticated = .redirect t) :
    navigate path isAuthenticated loaded = (.redirect t, loaded) := by
  simp [navigate, h]

/-- Witness for C7: unauthenticated navigation to the protected dashboard path
redirects to the login path and invokes no loader (starting from none). -/
theorem C7_redirect_never_invokes_loader_witness :
    routeMatch "/dashboard" false = .redirect "/login" ∧
    navigate "/dashboard" false [] = (.redirect "/login", ([] : List Screen)) :=
  ⟨by decide, C7_redirect_never_invokes_loader "/dashboard" false [] "/login" (by decide)⟩

/-- C8: rehydration from absent or malformed storage leaves the store in the
logged-out initial state, user and token absent and isAuthenticated false; the
rehydration function is total, so no exception is possible. -/
theorem C8_malformed_storage_degrades :
    rehydrate .malformed initialAuthState = initialAuthState ∧
    rehydrate .absent initialAuthState = initialAuthState ∧
    initialAuthState.user = none ∧
    initialAuthState.token = none ∧
    initialAuthState.isAuthenticated = false := by
  decide

/-- C9: with no captured error the ErrorBoundary renders its children; with a
captured error it renders the supplied fallback when the prop is present, and
otherwise the built-in failure screen offering exactly the reload and retry
actions; handleReset only clears the captured error, returning the state to
the initial one. -/
theorem C9_error_boundary_render (s : EBState) (fb : Option EBView) :
    (s.hasError = false → renderEB s fb = .children) ∧
    (s.hasError = true → ∀ v, fb = some v → renderEB s fb = v) ∧
    (s.hasError = true → fb = none → renderEB s fb = .failureScreen [.reload, .retry]) ∧
    handleReset s = initialEBState := by
  refine ⟨?_, ?_, ?_, rfl⟩
  · intro h; simp [renderEB, h]
  · intro h v hv; simp [renderEB, h, hv]
  · intro h hv; simp [renderEB, h, hv]

/-- Witness for C9 at the initial state and at a captured-error state, with
and without a fallback prop. -/
theorem C9_error_boundary_render_witness :
    renderEB initialEBState none = .children ∧
    renderEB bootError (some .children) = .children ∧
    renderEB bootError none = .failureScreen [.reload, .retry] ∧
    handleReset bootError = initialEBState :=
  ⟨(C9_error_boundary_render initialEBState none).1 rfl,
   (C9_error_boundary_render bootError (some .children)).2.1 rfl .children rfl,
   (C9_error_boundary_render bootError none).2.2.1 rfl rfl,
   (C9_error_boundary_render bootError none).2.2.2⟩

/-- C10: the root path never mounts a screen of its own: authenticated
sessions are allowed through the guard and then redirected to the dashboard
path by the index route, unauthenticated sessions are redirected to the login
path, and in both cases no deferred loader is invoked. -/
theorem C10_root_path_always_redirects :
    routeMatch "/" true = .redirect "/dashboard" ∧
    routeMatch "/" false = .redirect "/login" ∧
    (∀ a : Bool, (routeMatch "/" a).isRedirect = true) ∧
    (∀ (a : Bool) (loaded : List Screen), (navigate "/" a loaded).2 = loaded) := by
  refine ⟨by decide, by decide, ?_, ?_⟩
  · intro a; cases a <;> decide
  · intro a loaded; cases a <;> rfl

end REB
